/-
Verification of the OpenKnots/openclaw docs-chat local server and store
factory (scripts/docs-chat/serve.ts and scripts/docs-chat/rag/store-factory.ts)
against their natural-language specification.

Shallow embedding conventions:
  - Environment variables and HTTP headers are Option String (none = absent;
    a set-but-empty variable is some "").
  - JavaScript truthiness of a string value (empty string is falsy) is made
    explicit wherever the source relies on it.
  - Request bodies arrive as a list of chunks; chunk byte length is modelled
    by String.length (chunks are treated as ASCII/1-byte text).
  - JSON.parse is a platform builtin, so the handler is parameterized by an
    abstract parse function String -> Option JsonValue (none = parse throws);
    facts the source relies on (parsing the empty string throws, parsing the
    two-character empty-object literal yields an empty object) appear as
    hypotheses discharged concretely in witnesses.
  - Time is an explicit natural-number parameter (epoch milliseconds);
    Date.now() inside one request handling is read once.
-/
import Mathlib

namespace DocsChat

/-! ## JSON value model -/

/-- A JSON value as produced by JSON.parse. -/
inductive JsonValue where
  | null
  | bool (b : Bool)
  | num (n : Int)
  | str (s : String)
  | arr (elems : List JsonValue)
  | obj (fields : List (String × JsonValue))

/-- Outcome of the JavaScript property access parsed.message inside the try
block of handleChat: accessing a property of null throws a TypeError (caught
by the same catch as a parse failure), a missing field or a non-object
primitive yields undefined, and an object with the field yields its value
(JSON.parse keeps the last occurrence of a duplicated key). -/
inductive MsgAccess where
  | throws
  | undefined
  | value (v : JsonValue)

/-- Property access v.message on the result of JSON.parse. -/
def getMessage : JsonValue → MsgAccess
  | .null => .throws
  | .obj fields =>
      match List.lookup "message" fields.reverse with
      | some v => .value v
      | none => .undefined
  | _ => .undefined

/-- Combined JSON.parse + .message access inside the try block:
a parse failure and a throwing access are indistinguishable to the catch. -/
def parseMessage (parse : String → Option JsonValue) (s : String) : MsgAccess :=
  match parse s with
  | none => .throws
  | some v => getMessage v

/-! ## JavaScript string builtins (trim, split) modelled executably -/

/-- Whitespace trimmed by the JavaScript trim builtin, restricted to the
ASCII whitespace characters relevant to this model. -/
def jsIsWhitespace (c : Char) : Bool :=
  c == ' ' || c == '\t' || c == '\n' || c == '\r' || c == '\x0b' || c == '\x0c'

/-- JavaScript String.prototype.trim: drop whitespace from both ends. -/
def jsTrim (s : String) : String :=
  String.mk
    (((s.data.dropWhile jsIsWhitespace).reverse.dropWhile jsIsWhitespace).reverse)

/-- Splitting helper for the JavaScript split builtin with a one-character
separator: cur holds the current field reversed. -/
def splitOnCharAux (sep : Char) : List Char → List Char → List String
  | [], cur => [String.mk cur.reverse]
  | c :: cs, cur =>
      if c == sep then String.mk cur.reverse :: splitOnCharAux sep cs []
      else splitOnCharAux sep cs (c :: cur)

/-- JavaScript split on a comma; the empty string yields one empty field. -/
def jsSplitComma (s : String) : List String :=
  splitOnCharAux ',' s.data []

/-! ## Body reading (serve.ts handleChat, lines 150-160) -/

/-- serve.ts: MAX_BODY_SIZE = 8192 bytes. -/
def MAX_BODY_SIZE : Nat := 8192

/-- serve.ts: MAX_MESSAGE_LENGTH = 2000 characters. -/
def MAX_MESSAGE_LENGTH : Nat := 2000

/-- The read loop of handleChat: add each chunk length to bodySize, abort
with none (the 413 path) as soon as the running size exceeds MAX_BODY_SIZE,
otherwise append the chunk to the accumulated body. -/
def readBodyAux (acc : String) (bodySize : Nat) : List String → Option String
  | [] => some acc
  | c :: cs =>
      if bodySize + c.length > MAX_BODY_SIZE then none
      else readBodyAux (acc ++ c) (bodySize + c.length) cs

/-- Read the whole request body, none meaning the 413 abort. -/
def readBody (chunks : List String) : Option String :=
  readBodyAux "" 0 chunks

/-- Total size of a chunk list. -/
def sumLen : List String → Nat
  | [] => 0
  | c :: cs => c.length + sumLen cs

/-- Concatenation of all chunks, the body the source accumulates. -/
def bodyJoin : List String → String
  | [] => ""
  | c :: cs => c ++ bodyJoin cs

/-- The two-character JSON empty-object literal the source falls back to. -/
def jsonEmptyObj : String := "\x7b\x7d"

/-- serve.ts line 164: body or-else the empty-object literal; the JavaScript
or-operator takes the fallback exactly when body is the (falsy) empty
string. -/
def jsSource (body : String) : String :=
  if body = "" then jsonEmptyObj else body

/-! ## HTTP response model -/

/-- Response body: a JSON error object (with optional retryAfter field),
a plain text body, or the streamed answer for a validated message (the
upstream OpenAI relay is abstracted; only the validated message that would
be sent matters to the claims). -/
inductive RBody where
  | jsonErr (error : String) (retryAfter : Option Nat)
  | text (s : String)
  | streamed (message : String)
deriving DecidableEq

/-- An HTTP response: status, headers in the order they are attached, body. -/
structure ServerResponse where
  status : Nat
  headers : List (String × String)
  body : RBody
deriving DecidableEq

/-- serve.ts corsHeaders. -/
def corsHeaders : List (String × String) :=
  [("Access-Control-Allow-Origin", "*"),
   ("Access-Control-Allow-Methods", "GET, POST, OPTIONS"),
   ("Access-Control-Allow-Headers", "Content-Type")]

/-- serve.ts sendJson: spread of corsHeaders plus the JSON content type. -/
def sendJsonR (status : Nat) (error : String) (retryAfter : Option Nat) :
    ServerResponse :=
  ⟨status, corsHeaders ++ [("Content-Type", "application/json")],
   .jsonErr error retryAfter⟩

/-- The fixed apology text of the empty-retrieval path. -/
def apologyText : String :=
  "I couldn\x27t find relevant documentation excerpts for that question. Try rephrasing or search the docs."

/-- The 200 text/plain apology response for zero retrieval results. -/
def apologyResponse : ServerResponse :=
  ⟨200, corsHeaders ++ [("Content-Type", "text/plain; charset=utf-8")],
   .text apologyText⟩

/-- The 200 chunked streaming response for a validated message. -/
def streamResponse (message : String) : ServerResponse :=
  ⟨200, corsHeaders ++ [("Content-Type", "text/plain; charset=utf-8"),
    ("Transfer-Encoding", "chunked")],
   .streamed message⟩

/-- The 400 error text for an over-long message, interpolating
MAX_MESSAGE_LENGTH exactly as the source template literal does. -/
def tooLongMsg : String :=
  "Message too long (max " ++ toString MAX_MESSAGE_LENGTH ++ " characters)"

/-! ## handleChat (serve.ts lines 149-233) -/

/-- The validation cascade of handleChat on the outcome of JSON.parse plus
the .message access: Invalid JSON when parse or the access throws; message
required when the message is undefined, a non-string, the empty string, or
trims to empty; the 2000-character cap; then the apology on zero retrieval
results, else the streaming path with the trimmed message. -/
def validateMsg (rlen : String → Nat) : MsgAccess → ServerResponse
  | .throws => sendJsonR 400 "Invalid JSON" none
  | .undefined => sendJsonR 400 "message required" none
  | .value (.str message) =>
      if message = "" then sendJsonR 400 "message required" none
      else if jsTrim message = "" then sendJsonR 400 "message required" none
      else if (jsTrim message).length > MAX_MESSAGE_LENGTH then
        sendJsonR 400 tooLongMsg none
      else if rlen (jsTrim message) = 0 then apologyResponse
      else streamResponse (jsTrim message)
  | .value _ => sendJsonR 400 "message required" none

/-- handleChat, parameterized by the abstract JSON parse and by the length of
the retriever result list for a given (validated) message: 413 on an
oversized body, otherwise the validation cascade on the parsed body. -/
def handleChat (parse : String → Option JsonValue) (rlen : String → Nat)
    (chunks : List String) : ServerResponse :=
  match readBody chunks with
  | none => sendJsonR 413 "Request too large" none
  | some body => validateMsg rlen (parseMessage parse (jsSource body))

/-! ## Rate limiting (serve.ts lines 24-56) -/

/-- One entry of the in-memory rate limit map. -/
structure RateRecord where
  count : Nat
  resetAt : Nat
deriving DecidableEq

/-- The rate limit map, as a lookup function (IP to record). -/
abbrev RLStore := String → Option RateRecord

/-- Map.set on the rate limit map. -/
def updateStore (store : RLStore) (ip : String) (r : RateRecord) : RLStore :=
  fun k => if k = ip then some r else store k

/-- Result of checkRateLimit; remaining is an Int because the source computes
RATE_LIMIT - count, which is negative when RATE_LIMIT is 0. -/
structure RateCheckResult where
  allowed : Bool
  remaining : Int
  resetAt : Nat
deriving DecidableEq

/-- checkRateLimit, with the configured limit, window and the current time
as explicit parameters, threading the map state. -/
def checkRateLimit (lim window now : Nat) (store : RLStore) (ip : String) :
    RateCheckResult × RLStore :=
  match store ip with
  | none =>
      (⟨true, (lim : Int) - 1, now + window⟩,
       updateStore store ip ⟨1, now + window⟩)
  | some record =>
      if now > record.resetAt then
        (⟨true, (lim : Int) - 1, now + window⟩,
         updateStore store ip ⟨1, now + window⟩)
      else if record.count ≥ lim then
        (⟨false, 0, record.resetAt⟩, store)
      else
        (⟨true, (lim : Int) - (record.count + 1), record.resetAt⟩,
         updateStore store ip ⟨record.count + 1, record.resetAt⟩)

/-- A sequence of checkRateLimit calls for one IP at the given times. -/
def runRL (lim window : Nat) (ip : String) :
    List Nat → RLStore → List RateCheckResult × RLStore
  | [], store => ([], store)
  | t :: ts, store =>
      ((checkRateLimit lim window t store ip).1 ::
        (runRL lim window ip ts (checkRateLimit lim window t store ip).2).1,
       (runRL lim window ip ts (checkRateLimit lim window t store ip).2).2)

/-! ## Client IP resolution (serve.ts lines 61-72) -/

/-- getClientIP: first comma-separated part of x-forwarded-for when that
header is a string, else x-real-ip trimmed, else the socket remote address
or-else the literal unknown (the or-operator treats an empty remote address
as absent). -/
def getClientIP (xff xri ra : Option String) : String :=
  match xff with
  | some forwarded => jsTrim ((jsSplitComma forwarded).headD "")
  | none =>
      match xri with
      | some realIp => jsTrim realIp
      | none =>
          match ra with
          | some a => if a = "" then "unknown" else a
          | none => "unknown"

/-! ## POST /chat branch of the request handler (serve.ts lines 248-269) -/

/-- Math.ceil(n / 1000) on a natural number. -/
def ceilDiv1000 (n : Nat) : Nat := (n + 999) / 1000

/-- The three rate limit headers set on every POST /chat response. -/
def rateHeaders (lim : Nat) (rc : RateCheckResult) : List (String × String) :=
  [("X-RateLimit-Limit", toString lim),
   ("X-RateLimit-Remaining", toString (max 0 rc.remaining)),
   ("X-RateLimit-Reset", toString (ceilDiv1000 rc.resetAt))]

/-- res.setHeader before the branch: those headers precede whatever the
branch later writes. -/
def withHeaders (hs : List (String × String)) (r : ServerResponse) :
    ServerResponse :=
  ⟨r.status, hs ++ r.headers, r.body⟩

/-- serve.ts line 262: the 429 JSON body text. -/
def tooManyMsg : String := "Too many requests. Please wait before trying again."

/-- The POST /chat branch of the server: resolve the client IP, run the rate
limiter, attach the rate limit headers, then either answer 429 with
Retry-After, or run handleChat. Returns the response and the updated rate
limit map. -/
def handlePostChat (lim window now : Nat) (store : RLStore)
    (parse : String → Option JsonValue) (rlen : String → Nat)
    (xff xri ra : Option String) (chunks : List String) :
    ServerResponse × RLStore :=
  if (checkRateLimit lim window now store (getClientIP xff xri ra)).1.allowed then
    (withHeaders
      (rateHeaders lim
        (checkRateLimit lim window now store (getClientIP xff xri ra)).1)
      (handleChat parse rlen chunks),
     (checkRateLimit lim window now store (getClientIP xff xri ra)).2)
  else
    (withHeaders
      (rateHeaders lim
        (checkRateLimit lim window now store (getClientIP xff xri ra)).1 ++
        [("Retry-After", toString (ceilDiv1000
          ((checkRateLimit lim window now store
            (getClientIP xff xri ra)).1.resetAt - now)))])
      (sendJsonR 429 tooManyMsg
        (some (ceilDiv1000
          ((checkRateLimit lim window now store
            (getClientIP xff xri ra)).1.resetAt - now)))),
     (checkRateLimit lim window now store (getClientIP xff xri ra)).2)

/-! ## Store factory (rag/store-factory.ts) -/

/-- The two storage backends. -/
inductive StoreMode where
  | upstash
  | lancedb
deriving DecidableEq

/-- JavaScript truthiness of an optional environment string: absent is falsy
and the empty string is falsy. -/
def jsTruthyStr : Option String → Bool
  | none => false
  | some s => s ≠ ""

/-- detectStoreMode: upstash exactly when both environment values are
truthy. -/
def detectStoreMode (url token : Option String) : StoreMode :=
  if jsTruthyStr url && jsTruthyStr token then .upstash else .lancedb

/-- Paths are modelled as segment lists rooted at the repository root. -/
def docsChatDir : List String := ["scripts", "docs-chat"]

/-- Directory of serve.ts. -/
def serveDirname : List String := docsChatDir

/-- Directory of rag/store-factory.ts. -/
def factoryDirname : List String := docsChatDir ++ ["rag"]

/-- path.join(dir, segment) for a plain segment. -/
def pathJoin1 (d : List String) (s : String) : List String := d ++ [s]

/-- path.resolve(dir, "../segment"): pop one directory, then the segment. -/
def pathResolveUp1 (d : List String) (s : String) : List String :=
  d.dropLast ++ [s]

/-- serve.ts line 14: defaultDbPath = path.join(dirname, ".lance-db"). -/
def defaultDbPath : List String := pathJoin1 serveDirname ".lance-db"

/-- store-factory.ts line 37:
DEFAULT_LANCEDB_PATH = path.resolve(dirname, "../.lancedb"). -/
def DEFAULT_LANCEDB_PATH : List String :=
  pathResolveUp1 factoryDirname ".lancedb"

/-- store-factory.ts line 38: VECTOR_DIM = 3072. -/
def VECTOR_DIM : Nat := 3072

/-- Modelled from the spec: rag/embeddings.ts is not under src/; the spec
fixes the Embeddings client dimensions at 3072 (text-embedding-3-large). -/
def embeddingsDimensions : Nat := 3072

/-- The constructor arguments a store instantiation receives: the Upstash
store takes none, the LanceDB store takes a path and a dimensionality. -/
inductive StoreArgs where
  | upstash
  | lancedb (dbPath : List String) (dim : Nat)
deriving DecidableEq

/-- createStore: nullish-coalesce the explicit mode with auto-detection; the
upstash branch constructs the Upstash store with no arguments, the lancedb
branch nullish-coalesces the path with DEFAULT_LANCEDB_PATH and threads
VECTOR_DIM. -/
def createStoreArgs (mode : Option StoreMode)
    (lancedbPath : Option (List String)) (url token : Option String) :
    StoreArgs × StoreMode :=
  let selectedMode := mode.getD (detectStoreMode url token)
  match selectedMode with
  | .upstash => (.upstash, .upstash)
  | .lancedb => (.lancedb (lancedbPath.getD DEFAULT_LANCEDB_PATH) VECTOR_DIM,
      .lancedb)

/-- serve.ts lines 13-15 and 83: the server constructs DocsStore directly
(not through the factory) with DOCS_CHAT_DB or-else defaultDbPath, and
embeddings.dimensions; the env override is modelled as an already resolved
path (the or-operator takes the fallback when the variable is absent). -/
def serveStoreArgs (docsChatDbEnv : Option (List String)) : StoreArgs :=
  .lancedb (docsChatDbEnv.getD defaultDbPath) embeddingsDimensions

/-! ## Concrete test inputs and the C2 predicate -/

/-- An 8193-byte body, one past the cap. -/
def oversizedChunk : String := String.mk (List.replicate 8193 'a')

/-- The 400 condition of the specification, as a predicate on the outcome of
parsing the raw body and accessing its message field: not valid JSON, or
message absent or not a string, or empty after trimming, or longer than 2000
characters after trimming. -/
def chatBad : MsgAccess → Bool
  | .value (.str s) =>
      (jsTrim s = "") || ((jsTrim s).length > MAX_MESSAGE_LENGTH)
  | _ => true

/-- A JSON.parse-like parser for witnesses: one known body parses to an
object carrying a string message, the empty-object literal parses to the
empty object, and everything else (in particular the empty string) fails. -/
def wParse : String → Option JsonValue := fun s =>
  if s = "ok" then some (.obj [("message", .str "hello")])
  else if s = jsonEmptyObj then some (.obj []) else none

/-! ## Helper lemmas: body reading -/

/-- Once the running size would exceed the cap within the given chunk prefix,
the read loop aborts, whatever comes afterwards. -/
theorem readBodyAux_overflow (chunks : List String) :
    ∀ (acc : String) (size : Nat) (rest : List String),
      size ≤ MAX_BODY_SIZE → MAX_BODY_SIZE < size + sumLen chunks →
      readBodyAux acc size (chunks ++ rest) = none := by
  induction chunks with
  | nil =>
      intro acc size rest hle hgt
      simp [sumLen] at hgt
      omega
  | cons c cs ih =>
      intro acc size rest hle hgt
      simp only [List.cons_append, readBodyAux]
      by_cases h : size + c.length > MAX_BODY_SIZE
      · simp [h]
      · rw [if_neg h]
        exact ih (acc ++ c) (size + c.length) rest (by omega)
          (by simp [sumLen] at hgt; omega)

/-- When the total size stays within the cap, the read loop returns the
concatenation of all chunks. -/
theorem readBodyAux_le (chunks : List String) :
    ∀ (acc : String) (size : Nat),
      size + sumLen chunks ≤ MAX_BODY_SIZE →
      readBodyAux acc size chunks = some (acc ++ bodyJoin chunks) := by
  induction chunks with
  | nil =>
      intro acc size _
      simp [readBodyAux, bodyJoin]
  | cons c cs ih =>
      intro acc size h
      simp only [sumLen] at h
      simp only [readBodyAux, bodyJoin]
      rw [if_neg (by omega)]
      rw [ih (acc ++ c) (size + c.length) (by omega)]
      simp [String.append_assoc]

/-- readBody of a within-cap chunk list is the concatenated body. -/
theorem readBody_le (chunks : List String) (h : sumLen chunks ≤ MAX_BODY_SIZE) :
    readBody chunks = some (bodyJoin chunks) := by
  have := readBodyAux_le chunks "" 0 (by omega)
  simpa [readBody] using this

/-! ## Helper lemmas: rate limiting -/

/-- A fresh or expired entry makes checkRateLimit open a new window with
count 1, allowed, remaining lim - 1, reset now + window. -/
theorem checkRateLimit_newWindow (lim window now : Nat) (store : RLStore)
    (ip : String)
    (h : store ip = none ∨ ∃ r, store ip = some r ∧ now > r.resetAt) :
    checkRateLimit lim window now store ip =
      (⟨true, (lim : Int) - 1, now + window⟩,
       updateStore store ip ⟨1, now + window⟩) := by
  rcases h with h | ⟨r, hr, hexp⟩
  · simp [checkRateLimit, h]
  · simp [checkRateLimit, hr, hexp]

/-- Within one window, starting from an existing entry of count c, a run of
requests at times not past the reset keeps allowing while the count stays
at or below the limit, and increments the count once per request. -/
theorem runRL_within (lim window : Nat) (ip : String) (ts : List Nat) :
    ∀ (store : RLStore) (c R : Nat),
      store ip = some ⟨c, R⟩ →
      (∀ t ∈ ts, t ≤ R) →
      c + ts.length ≤ lim →
      ((runRL lim window ip ts store).1.all (·.allowed) = true) ∧
      (runRL lim window ip ts store).2 ip = some ⟨c + ts.length, R⟩ := by
  induction ts with
  | nil =>
      intro store c R hst _ _
      simpa [runRL] using hst
  | cons t ts ih =>
      intro store c R hst hts hcount
      have hnot : ¬ t > R := by
        have := hts t (by simp)
        omega
      have hlt : ¬ c ≥ lim := by
        simp only [List.length_cons] at hcount
        omega
      have hstep : checkRateLimit lim window t store ip =
          (⟨true, (lim : Int) - (c + 1), R⟩,
           updateStore store ip ⟨c + 1, R⟩) := by
        simp [checkRateLimit, hst, hnot, hlt]
      have hst1 : updateStore store ip ⟨c + 1, R⟩ ip = some ⟨c + 1, R⟩ := by
        simp [updateStore]
      have hrest := ih (updateStore store ip ⟨c + 1, R⟩) (c + 1) R hst1
        (fun t ht => hts t (by simp [ht])) (by simp at hcount ⊢; omega)
      simp only [runRL, hstep]
      refine ⟨?_, ?_⟩
      · simp [hrest.1]
      · have := hrest.2
        simpa [Nat.add_assoc, Nat.add_comm, Nat.add_left_comm] using this

/-! ## Helper lemmas: handleChat branch equations -/

/-- handleChat answers 413 whenever the body read aborts. -/
theorem handleChat_of_readBody_none (parse : String → Option JsonValue)
    (rlen : String → Nat) (chunks : List String)
    (h : readBody chunks = none) :
    handleChat parse rlen chunks = sendJsonR 413 "Request too large" none := by
  unfold handleChat
  rw [h]

/-- handleChat after a successful body read runs the validation cascade on
the accumulated body. -/
theorem handleChat_of_readBody_some (parse : String → Option JsonValue)
    (rlen : String → Nat) (chunks : List String) (body : String)
    (h : readBody chunks = some body) :
    handleChat parse rlen chunks =
      validateMsg rlen (parseMessage parse (jsSource body)) := by
  unfold handleChat
  rw [h]

/-- Equation of the validation cascade at a string-valued message. -/
theorem validateMsg_str (rlen : String → Nat) (s : String) :
    validateMsg rlen (.value (.str s)) =
      (if s = "" then sendJsonR 400 "message required" none
       else if jsTrim s = "" then sendJsonR 400 "message required" none
       else if (jsTrim s).length > MAX_MESSAGE_LENGTH then
         sendJsonR 400 tooLongMsg none
       else if rlen (jsTrim s) = 0 then apologyResponse
       else streamResponse (jsTrim s)) := rfl

theorem oversizedChunk_length : oversizedChunk.length = 8193 :=
  List.length_replicate 8193 'a'

theorem readBody_oversized : readBody [oversizedChunk] = none := by
  have hsum : sumLen [oversizedChunk] = 8193 := by
    simp [sumLen, oversizedChunk_length]
  have h := readBodyAux_overflow [oversizedChunk] "" 0 []
    (by norm_num [MAX_BODY_SIZE]) (by rw [hsum]; norm_num [MAX_BODY_SIZE])
  simpa [readBody] using h

/-- The POST /chat branch answers 429 with Retry-After when the rate check
blocks the request, leaving the rate map unchanged. -/
theorem handlePostChat_of_blocked (lim window now : Nat) (store : RLStore)
    (parse : String → Option JsonValue) (rlen : String → Nat)
    (xff xri ra : Option String) (chunks : List String) (R : Nat)
    (h : checkRateLimit lim window now store (getClientIP xff xri ra) =
      (⟨false, 0, R⟩, store)) :
    handlePostChat lim window now store parse rlen xff xri ra chunks =
      (withHeaders
        (rateHeaders lim ⟨false, 0, R⟩ ++
          [("Retry-After", toString (ceilDiv1000 (R - now)))])
        (sendJsonR 429 tooManyMsg (some (ceilDiv1000 (R - now)))), store) := by
  unfold handlePostChat
  rw [h]
  rfl

/-- A within-window entry that has reached the limit makes checkRateLimit
block the request and leave the map unchanged. -/
theorem checkRateLimit_blocked (lim window now : Nat) (store : RLStore)
    (ip : String) (R : Nat) (hip : store ip = some ⟨lim, R⟩)
    (hnow : now ≤ R) :
    checkRateLimit lim window now store ip = (⟨false, 0, R⟩, store) := by
  simp only [checkRateLimit, hip]
  rw [if_neg (by omega : ¬ now > R), if_pos (le_refl lim)]

/-! ## Claim theorems -/

/-- C3: every POST /chat request whose body exceeds 8192 bytes is answered
with status 413, and the response does not depend on the JSON parser, on the
retriever, or on any chunks after the overflow point — so reading stops at
the overflow and JSON parsing of the body is never attempted; parsing is
reached only for bodies of at most 8192 bytes. -/
theorem C3_body_cap (p1 p2 : String → Option JsonValue) (r1 r2 : String → Nat)
    (chunks rest rest2 : List String)
    (h : sumLen chunks > MAX_BODY_SIZE) :
    handleChat p1 r1 (chunks ++ rest) = sendJsonR 413 "Request too large" none ∧
    handleChat p2 r2 (chunks ++ rest2) =
      sendJsonR 413 "Request too large" none := by
  have h1 : readBody (chunks ++ rest) = none := by
    have := readBodyAux_overflow chunks "" 0 rest (Nat.zero_le _) (by omega)
    simpa [readBody] using this
  have h2 : readBody (chunks ++ rest2) = none := by
    have := readBodyAux_overflow chunks "" 0 rest2 (Nat.zero_le _) (by omega)
    simpa [readBody] using this
  exact ⟨handleChat_of_readBody_none _ _ _ h1,
    handleChat_of_readBody_none _ _ _ h2⟩

/-- C3 witness: a concrete 8193-byte body is rejected with 413 whatever
parser, retriever, and trailing chunks are supplied. -/
theorem C3_body_cap_witness :
    sumLen [oversizedChunk] > MAX_BODY_SIZE ∧
    handleChat (fun _ => none) (fun _ => 0) ([oversizedChunk] ++ []) =
      sendJsonR 413 "Request too large" none := by
  have hs : sumLen [oversizedChunk] = 8193 := by
    simp [sumLen, oversizedChunk_length]
  refine ⟨by rw [hs]; norm_num [MAX_BODY_SIZE], ?_⟩
  exact (C3_body_cap (fun _ => none) (fun _ => some (.obj [])) (fun _ => 0)
    (fun _ => 1) [oversizedChunk] [] ["x"]
    (by rw [hs]; norm_num [MAX_BODY_SIZE])).1

/-- C10: a zero-byte POST /chat body is parsed through the empty-object
fallback, so the response is 400 with error message required, not 400 with
error Invalid JSON. -/
theorem C10_empty_body (parse : String → Option JsonValue)
    (rlen : String → Nat) (chunks : List String)
    (hempty : readBody chunks = some "")
    (hparse : parse jsonEmptyObj = some (.obj [])) :
    handleChat parse rlen chunks = sendJsonR 400 "message required" none ∧
    handleChat parse rlen chunks ≠ sendJsonR 400 "Invalid JSON" none := by
  have hpm : parseMessage parse (jsSource "") = .undefined := by
    have hsrc : jsSource "" = jsonEmptyObj := rfl
    rw [hsrc]
    unfold parseMessage
    rw [hparse]
    rfl
  have heq : handleChat parse rlen chunks =
      sendJsonR 400 "message required" none := by
    rw [handleChat_of_readBody_some parse rlen chunks "" hempty, hpm]
    rfl
  refine ⟨heq, ?_⟩
  rw [heq]
  simp [sendJsonR]

/-- C10 witness: the empty chunk list with a JSON.parse-like parser. -/
theorem C10_empty_body_witness :
    readBody ([] : List String) = some "" ∧
    handleChat (fun s => if s = jsonEmptyObj then some (.obj []) else none)
      (fun _ => 0) [] = sendJsonR 400 "message required" none := by
  refine ⟨rfl, ?_⟩
  exact (C10_empty_body (fun s => if s = jsonEmptyObj then some (.obj []) else none)
    (fun _ => 0) [] rfl rfl).1

/-- C7: a valid request whose retrieval comes back empty is answered with
status 200, Content-Type text/plain, and the fixed apology text — never an
error status. -/
theorem C7_empty_retrieval (parse : String → Option JsonValue)
    (rlen : String → Nat) (chunks : List String) (body msg : String)
    (hrb : readBody chunks = some body)
    (hpm : parseMessage parse (jsSource body) = .value (.str msg))
    (hne : msg ≠ "") (htr : jsTrim msg ≠ "")
    (hlen : (jsTrim msg).length ≤ MAX_MESSAGE_LENGTH)
    (hzero : rlen (jsTrim msg) = 0) :
    handleChat parse rlen chunks = apologyResponse ∧
    apologyResponse.status = 200 ∧
    apologyResponse.headers.lookup "Content-Type" =
      some "text/plain; charset=utf-8" ∧
    apologyResponse.body = .text apologyText := by
  refine ⟨?_, rfl, rfl, rfl⟩
  rw [handleChat_of_readBody_some parse rlen chunks body hrb, hpm,
    validateMsg_str]
  rw [if_neg hne, if_neg htr,
    if_neg (by omega : ¬ (jsTrim msg).length > MAX_MESSAGE_LENGTH),
    if_pos hzero]

/-- C7 witness: a whitespace-padded message whose retrieval is empty. -/
theorem C7_empty_retrieval_witness :
    handleChat (fun _ => some (.obj [("message", .str " how do I set it up ")]))
      (fun _ => 0) ["x"] = apologyResponse :=
  (C7_empty_retrieval
    (fun _ => some (.obj [("message", .str " how do I set it up ")]))
    (fun _ => 0) ["x"] "x" " how do I set it up " rfl rfl (by decide)
    (by decide) (by decide) rfl).1

/-- C9: when the rate map has no entry for the IP, or the entry is expired
(now strictly past resetAt), checkRateLimit always opens a new window with
count 1 and allows the request, whatever the configured limit; the reported
remaining count is limit - 1, which is -1 when the limit is 0. -/
theorem C9_fresh_window (lim window now : Nat) (store : RLStore) (ip : String)
    (h : store ip = none ∨ ∃ r, store ip = some r ∧ now > r.resetAt) :
    (checkRateLimit lim window now store ip).1.allowed = true ∧
    (checkRateLimit lim window now store ip).1.remaining = (lim : Int) - 1 ∧
    (checkRateLimit lim window now store ip).2 ip = some ⟨1, now + window⟩ ∧
    (lim = 0 → (checkRateLimit lim window now store ip).1.remaining = -1) := by
  rw [checkRateLimit_newWindow lim window now store ip h]
  refine ⟨rfl, rfl, by simp [updateStore], ?_⟩
  rintro rfl
  rfl

/-- C9 witness: limit 0, first request, allowed with remaining -1. -/
theorem C9_fresh_window_witness :
    (checkRateLimit 0 60000 5 (fun _ => none) "198.51.100.1").1.allowed = true ∧
    (checkRateLimit 0 60000 5 (fun _ => none) "198.51.100.1").1.remaining = -1 := by
  have h := C9_fresh_window 0 60000 5 (fun _ => none) "198.51.100.1" (Or.inl rfl)
  exact ⟨h.1, h.2.2.2 rfl⟩

/-- C4 counterexample: with the URL variable present but set to the empty
string and the token present and non-empty, both variables are present, yet
detectStoreMode returns local (lancedb), not cloud — refuting the claim that
presence of both suffices for cloud mode. -/
theorem C4_counterexample :
    (some "" : Option String).isSome = true ∧
    (some "token" : Option String).isSome = true ∧
    detectStoreMode (some "") (some "token") = .lancedb ∧
    detectStoreMode (some "") (some "token") ≠ .upstash := by
  exact ⟨rfl, rfl, rfl, by decide⟩

/-- C4 (corrected): detectStoreMode returns cloud (upstash) mode if and only
if both environment variables are present with non-empty values; if either is
absent or set to the empty string, it returns local (lancedb) mode — for
every combination of presence and emptiness of the two variables. -/
theorem C4_corrected (url token : Option String) :
    detectStoreMode url token = .upstash ↔
      ((∃ u, url = some u ∧ u ≠ "") ∧ (∃ t, token = some t ∧ t ≠ "")) := by
  cases url with
  | none => simp [detectStoreMode, jsTruthyStr]
  | some u =>
      cases token with
      | none => simp [detectStoreMode, jsTruthyStr]
      | some t =>
          by_cases hu : u = "" <;> by_cases ht : t = "" <;>
            simp [detectStoreMode, jsTruthyStr, hu, ht]

/-- C8 counterexample: with no proxy headers and an empty (but present)
socket remote address, getClientIP returns the literal unknown rather than
the socket address, refuting the claim's unconditional third step. -/
theorem C8_counterexample :
    getClientIP none none (some "") = "unknown" ∧
    getClientIP none none (some "") ≠ "" := by
  exact ⟨rfl, by decide⟩

/-- C8 (corrected): the client IP is the first comma-separated entry of
X-Forwarded-For (trimmed) when that header is a string; otherwise X-Real-IP
trimmed when it is a string; otherwise the socket remote address when it is
present and non-empty; otherwise (absent or empty) the literal unknown. -/
theorem C8_corrected (xff xri ra : Option String) :
    (∀ s, xff = some s →
      getClientIP xff xri ra = jsTrim ((jsSplitComma s).headD "")) ∧
    (xff = none → ∀ s, xri = some s → getClientIP xff xri ra = jsTrim s) ∧
    (xff = none → xri = none → ∀ a, ra = some a → a ≠ "" →
      getClientIP xff xri ra = a) ∧
    (xff = none → xri = none → (ra = none ∨ ra = some "") →
      getClientIP xff xri ra = "unknown") := by
  refine ⟨?_, ?_, ?_, ?_⟩
  · rintro s rfl
    rfl
  · rintro rfl s rfl
    rfl
  · rintro rfl rfl a rfl ha
    simp [getClientIP, ha]
  · rintro rfl rfl (rfl | rfl) <;> rfl

/-- C8 witness: a present, non-empty socket address with no proxy headers
resolves to itself. -/
theorem C8_corrected_witness :
    getClientIP none none (some "203.0.113.9") = "203.0.113.9" :=
  (C8_corrected none none (some "203.0.113.9")).2.2.1 rfl rfl
    "203.0.113.9" rfl (by decide)

/-- C5: contrary to the claim, the local development server does not obtain
its store through the factory; with DOCS_CHAT_DB unset it constructs the
LanceDB store directly with default path scripts/docs-chat/.lance-db, while
createStore with no arguments in local mode uses scripts/docs-chat/.lancedb
(the path the README documents); the two default paths differ, so the store
the server opens is not the one the factory produces (the dimensionality,
3072 on both sides, does agree). -/
theorem C5_store_divergence :
    serveStoreArgs none ≠ (createStoreArgs none none none none).1 ∧
    defaultDbPath ≠ DEFAULT_LANCEDB_PATH ∧
    embeddingsDimensions = VECTOR_DIM := by
  exact ⟨by decide, by decide, rfl⟩

/-- C6: every POST /chat response — allowed, rate-limited, or failing
validation — carries X-RateLimit-Limit (the configured limit),
X-RateLimit-Remaining (the remaining count floored at zero, hence never
negative), and X-RateLimit-Reset (the reset time in epoch seconds, the
ceiling of resetAt over 1000). -/
theorem C6_rate_headers (lim window now : Nat) (store : RLStore)
    (parse : String → Option JsonValue) (rlen : String → Nat)
    (xff xri ra : Option String) (chunks : List String) :
    ((handlePostChat lim window now store parse rlen xff xri ra
        chunks).1.headers.lookup "X-RateLimit-Limit" = some (toString lim)) ∧
    ((handlePostChat lim window now store parse rlen xff xri ra
        chunks).1.headers.lookup "X-RateLimit-Remaining" =
      some (toString (max 0 (checkRateLimit lim window now store
        (getClientIP xff xri ra)).1.remaining))) ∧
    ((0 : Int) ≤ max 0 (checkRateLimit lim window now store
        (getClientIP xff xri ra)).1.remaining) ∧
    ((handlePostChat lim window now store parse rlen xff xri ra
        chunks).1.headers.lookup "X-RateLimit-Reset" =
      some (toString (ceilDiv1000 (checkRateLimit lim window now store
        (getClientIP xff xri ra)).1.resetAt))) := by
  unfold handlePostChat
  split
  · exact ⟨rfl, rfl, le_max_left 0 _, rfl⟩
  · exact ⟨rfl, rfl, le_max_left 0 _, rfl⟩

/-- C2 counterexample: a body of 8193 bytes that is not valid JSON satisfies
the claim's 400 condition, yet the handler answers 413, not 400 — so the
if-and-only-if fails as stated for bodies over the size cap. -/
theorem C2_counterexample :
    (handleChat (fun _ => none) (fun _ => 0) [oversizedChunk]).status = 413 ∧
    chatBad (parseMessage (fun _ => none) (bodyJoin [oversizedChunk])) = true ∧
    (handleChat (fun _ => none) (fun _ => 0) [oversizedChunk]).status ≠ 400 := by
  have h := handleChat_of_readBody_none (fun _ => none) (fun _ => 0)
    [oversizedChunk] readBody_oversized
  rw [h]
  exact ⟨rfl, rfl, by decide⟩

/-- C2 (corrected): restricted to bodies of at most 8192 bytes (larger
bodies are answered 413, see C3), POST /chat returns status 400 if and only
if the body is not valid JSON, or the message field is absent or not a
string, or the message is empty after trimming, or the trimmed message
exceeds 2000 characters; in the over-length case the error text names the
2000-character limit. -/
theorem C2_corrected (parse : String → Option JsonValue) (rlen : String → Nat)
    (chunks : List String) (hsize : sumLen chunks ≤ MAX_BODY_SIZE)
    (hemp : parse "" = none) (hobj : parse jsonEmptyObj = some (.obj [])) :
    ((handleChat parse rlen chunks).status = 400 ↔
      chatBad (parseMessage parse (bodyJoin chunks)) = true) ∧
    (∀ s, parseMessage parse (bodyJoin chunks) = .value (.str s) →
      jsTrim s ≠ "" → (jsTrim s).length > MAX_MESSAGE_LENGTH →
      (handleChat parse rlen chunks).body = .jsonErr tooLongMsg none ∧
      tooLongMsg = "Message too long (max 2000 characters)") := by
  have hrb := readBody_le chunks hsize
  rw [handleChat_of_readBody_some parse rlen chunks (bodyJoin chunks) hrb]
  by_cases hb : bodyJoin chunks = ""
  · have h1 : jsSource (bodyJoin chunks) = jsonEmptyObj := by
      rw [hb]
      rfl
    have h2 : parseMessage parse (jsSource (bodyJoin chunks)) = .undefined := by
      rw [h1]
      unfold parseMessage
      rw [hobj]
      rfl
    have h3 : parseMessage parse (bodyJoin chunks) = .throws := by
      rw [hb]
      unfold parseMessage
      rw [hemp]
    rw [h2, h3]
    refine ⟨by simp [validateMsg, sendJsonR, chatBad], ?_⟩
    intro s hs
    exact absurd hs (by simp)
  · have h1 : jsSource (bodyJoin chunks) = bodyJoin chunks := by
      simp [jsSource, hb]
    rw [h1]
    cases hpm : parseMessage parse (bodyJoin chunks) with
    | throws =>
        exact ⟨by simp [validateMsg, sendJsonR, chatBad], fun s hs => absurd hs (by simp)⟩
    | undefined =>
        exact ⟨by simp [validateMsg, sendJsonR, chatBad], fun s hs => absurd hs (by simp)⟩
    | value v =>
        cases v with
        | str s =>
            rw [validateMsg_str]
            by_cases hs0 : s = ""
            · subst hs0
              rw [if_pos rfl]
              refine ⟨by decide, ?_⟩
              rintro s' hs' htr _
              injection hs' with h4
              injection h4 with h5
              subst h5
              exact absurd rfl htr
            · rw [if_neg hs0]
              by_cases ht : jsTrim s = ""
              · rw [if_pos ht]
                refine ⟨by simp [validateMsg, sendJsonR, chatBad, ht], ?_⟩
                rintro s' hs' htr _
                injection hs' with h4
                injection h4 with h5
                subst h5
                exact absurd ht htr
              · rw [if_neg ht]
                by_cases hl : (jsTrim s).length > MAX_MESSAGE_LENGTH
                · rw [if_pos hl]
                  refine ⟨by simp [validateMsg, sendJsonR, chatBad, hl], ?_⟩
                  rintro s' hs' _ _
                  injection hs' with h4
                  injection h4 with h5
                  subst h5
                  exact ⟨rfl, by decide⟩
                · rw [if_neg hl]
                  have hcb : chatBad (.value (.str s)) = false := by
                    simp [chatBad, ht, hl]
                  have hstat :
                      (if rlen (jsTrim s) = 0 then apologyResponse
                        else streamResponse (jsTrim s)).status = 200 := by
                    split <;> rfl
                  refine ⟨by simp [hstat, hcb], ?_⟩
                  rintro s' hs' _ hlen
                  injection hs' with h4
                  injection h4 with h5
                  subst h5
                  exact absurd hlen hl
        | null =>
            exact ⟨by simp [validateMsg, sendJsonR, chatBad],
              fun s hs => absurd hs (by simp)⟩
        | bool b =>
            exact ⟨by simp [validateMsg, sendJsonR, chatBad],
              fun s hs => absurd hs (by simp)⟩
        | num n =>
            exact ⟨by simp [validateMsg, sendJsonR, chatBad],
              fun s hs => absurd hs (by simp)⟩
        | arr elems =>
            exact ⟨by simp [validateMsg, sendJsonR, chatBad],
              fun s hs => absurd hs (by simp)⟩
        | obj fields =>
            exact ⟨by simp [validateMsg, sendJsonR, chatBad],
              fun s hs => absurd hs (by simp)⟩

/-- C2 witness: a small well-formed body whose message has trimmed length in
range is not answered 400. -/
theorem C2_corrected_witness :
    (sumLen ["ok"] ≤ MAX_BODY_SIZE ∧ wParse "" = none ∧
      wParse jsonEmptyObj = some (.obj [])) ∧
    ((handleChat wParse (fun _ => 1) ["ok"]).status = 400 ↔
      chatBad (parseMessage wParse (bodyJoin ["ok"])) = true) :=
  ⟨⟨by decide, rfl, rfl⟩,
   (C2_corrected wParse (fun _ => 1) ["ok"] (by decide) rfl rfl).1⟩

/-- C1 counterexample: with RATE_LIMIT configured to 0, the (N+1)-th request
of a window is the very first request, and the code allows it (the response
is the handler outcome, not 429), refuting the claim at that configured
limit. -/
theorem C1_counterexample :
    (checkRateLimit 0 60000 0 (fun _ => none)
      (getClientIP none none (some "203.0.113.7"))).1.allowed = true ∧
    (handlePostChat 0 60000 0 (fun _ => none) (fun _ => none) (fun _ => 0)
      none none (some "203.0.113.7") []).1.status = 400 ∧
    (handlePostChat 0 60000 0 (fun _ => none) (fun _ => none) (fun _ => 0)
      none none (some "203.0.113.7") []).1.status ≠ 429 := by
  exact ⟨by decide, by decide, by decide⟩

/-- C1 (corrected): for every configured RATE_LIMIT of at least 1 (with
limit 0 the first request of a window is still allowed, see C9), for every
client IP: starting from no record, the first N requests inside one window
are all allowed; the (N+1)-th request still inside the window is rejected
with status 429, a Retry-After header holding the ceiling of the seconds
until reset, and a JSON error body, leaving the rate map unchanged; and the
first request strictly after the reset time starts a fresh window with
count 1 and is accepted again. -/
theorem C1_corrected (lim window : Nat) (hlim : 1 ≤ lim)
    (xff xri ra : Option String) (store : RLStore)
    (hfresh : store (getClientIP xff xri ra) = none)
    (t1 : Nat) (rest : List Nat) (hlen : rest.length + 1 = lim)
    (hwin : ∀ t ∈ rest, t ≤ t1 + window)
    (parse : String → Option JsonValue) (rlen : String → Nat)
    (chunks : List String)
    (t2 : Nat) (ht2 : t2 ≤ t1 + window)
    (t3 : Nat) (ht3 : t3 > t1 + window) :
    ((runRL lim window (getClientIP xff xri ra) (t1 :: rest) store).1.all
      (fun r => r.allowed) = true) ∧
    ((handlePostChat lim window t2
        (runRL lim window (getClientIP xff xri ra) (t1 :: rest) store).2
        parse rlen xff xri ra chunks).1.status = 429) ∧
    ((handlePostChat lim window t2
        (runRL lim window (getClientIP xff xri ra) (t1 :: rest) store).2
        parse rlen xff xri ra chunks).1.headers.lookup "Retry-After" =
      some (toString (ceilDiv1000 (t1 + window - t2)))) ∧
    ((handlePostChat lim window t2
        (runRL lim window (getClientIP xff xri ra) (t1 :: rest) store).2
        parse rlen xff xri ra chunks).1.body =
      .jsonErr tooManyMsg (some (ceilDiv1000 (t1 + window - t2)))) ∧
    ((checkRateLimit lim window t3
        (handlePostChat lim window t2
          (runRL lim window (getClientIP xff xri ra) (t1 :: rest) store).2
          parse rlen xff xri ra chunks).2
        (getClientIP xff xri ra)).1.allowed = true) ∧
    ((checkRateLimit lim window t3
        (handlePostChat lim window t2
          (runRL lim window (getClientIP xff xri ra) (t1 :: rest) store).2
          parse rlen xff xri ra chunks).2
        (getClientIP xff xri ra)).2 (getClientIP xff xri ra) =
      some ⟨1, t3 + window⟩) := by
  have hnew := checkRateLimit_newWindow lim window t1 store
    (getClientIP xff xri ra) (Or.inl hfresh)
  have hupd : updateStore store (getClientIP xff xri ra) ⟨1, t1 + window⟩
      (getClientIP xff xri ra) = some ⟨1, t1 + window⟩ := by
    simp [updateStore]
  have hrest := runRL_within lim window (getClientIP xff xri ra) rest
    (updateStore store (getClientIP xff xri ra) ⟨1, t1 + window⟩) 1
    (t1 + window) hupd hwin (by omega)
  have hall : (runRL lim window (getClientIP xff xri ra) (t1 :: rest)
      store).1.all (fun r => r.allowed) = true := by
    simp [runRL, hnew, hrest.1]
  have h2 : (1 : Nat) + rest.length = lim := by omega
  have hs1 : (runRL lim window (getClientIP xff xri ra) (t1 :: rest) store).2
      (getClientIP xff xri ra) = some ⟨lim, t1 + window⟩ := by
    have h := hrest.2
    rw [h2] at h
    simpa [runRL, hnew] using h
  have hblock := checkRateLimit_blocked lim window t2
    (runRL lim window (getClientIP xff xri ra) (t1 :: rest) store).2
    (getClientIP xff xri ra) (t1 + window) hs1 ht2
  have hresp := handlePostChat_of_blocked lim window t2
    (runRL lim window (getClientIP xff xri ra) (t1 :: rest) store).2
    parse rlen xff xri ra chunks (t1 + window) hblock
  have hreset := checkRateLimit_newWindow lim window t3
    (runRL lim window (getClientIP xff xri ra) (t1 :: rest) store).2
    (getClientIP xff xri ra) (Or.inr ⟨⟨lim, t1 + window⟩, hs1, ht3⟩)
  refine ⟨hall, ?_, ?_, ?_, ?_, ?_⟩
  · rw [hresp]
    rfl
  · rw [hresp]
    rfl
  · rw [hresp]
    rfl
  · rw [hresp, hreset]
  · rw [hresp]
    rw [hreset]
    simp [updateStore]

/-- C1 witness: limit 1, a first request at time 5 allowed, a second request
at time 6 rejected with 429 and Retry-After, and a request at time 2000
opening a fresh accepted window. -/
theorem C1_corrected_witness :
    ((runRL 1 1000 (getClientIP none none (some "9.9.9.9")) (5 :: [])
      (fun _ => none)).1.all (fun r => r.allowed) = true) ∧
    ((handlePostChat 1 1000 6
        (runRL 1 1000 (getClientIP none none (some "9.9.9.9")) (5 :: [])
          (fun _ => none)).2
        (fun _ => none) (fun _ => 0) none none (some "9.9.9.9") []).1.status
      = 429) ∧
    ((handlePostChat 1 1000 6
        (runRL 1 1000 (getClientIP none none (some "9.9.9.9")) (5 :: [])
          (fun _ => none)).2
        (fun _ => none) (fun _ => 0) none none
        (some "9.9.9.9") []).1.headers.lookup "Retry-After" =
      some (toString (ceilDiv1000 (5 + 1000 - 6)))) ∧
    ((handlePostChat 1 1000 6
        (runRL 1 1000 (getClientIP none none (some "9.9.9.9")) (5 :: [])
          (fun _ => none)).2
        (fun _ => none) (fun _ => 0) none none (some "9.9.9.9") []).1.body =
      .jsonErr tooManyMsg (some (ceilDiv1000 (5 + 1000 - 6)))) ∧
    ((checkRateLimit 1 1000 2000
        (handlePostChat 1 1000 6
          (runRL 1 1000 (getClientIP none none (some "9.9.9.9")) (5 :: [])
            (fun _ => none)).2
          (fun _ => none) (fun _ => 0) none none (some "9.9.9.9") []).2
        (getClientIP none none (some "9.9.9.9"))).1.allowed = true) ∧
    ((checkRateLimit 1 1000 2000
        (handlePostChat 1 1000 6
          (runRL 1 1000 (getClientIP none none (some "9.9.9.9")) (5 :: [])
            (fun _ => none)).2
          (fun _ => none) (fun _ => 0) none none (some "9.9.9.9") []).2
        (getClientIP none none (some "9.9.9.9"))).2
      (getClientIP none none (some "9.9.9.9")) = some ⟨1, 2000 + 1000⟩) :=
  C1_corrected 1 1000 (le_refl 1) none none (some "9.9.9.9") (fun _ => none)
    rfl 5 [] rfl (by simp) (fun _ => none) (fun _ => 0) [] 6 (by omega)
    2000 (by omega)

end DocsChat
